import Mathlib

/-!
Verification of the cli-cyber-triage incident pipeline.

This file shallowly embeds the parts of the repository that the verified
properties talk about:

* `src/db_manager.py` — the SQLite state store (`DatabaseManager`): the three
  tables `incidents`, `analysis` and `feedback` become three lists inside a
  `DB` record; each table row becomes a structure whose fields mirror the
  columns of the `CREATE TABLE` statements.  `created_at` columns
  (`TIMESTAMP DEFAULT CURRENT_TIMESTAMP`) are modelled as seconds since the
  epoch (`Nat`); SQLite compares the stored zero-padded
  `%Y-%m-%d %H:%M:%S` strings, which agrees with chronological order.
  `REAL` columns are modelled as `ℚ` (the program only ever stores the exact
  values 1.0 / 0.7 / 0.3 and confidences, and SQLite compares doubles
  exactly).
* `src/gemini_analyzer.py` — prompt composition and the response
  validation/persistence tail of `analyze_file`.  Python strings that are
  inspected character-by-character (file content, prompts) are modelled as
  `List Char` so that slicing `s[:50000]` becomes `List.take 50000`.
* `src/cyber_triage_cli.py` — the feedback-saving tail of
  `_collect_feedback`.

Operations that catch `sqlite3.Error` take an explicit `dbError : Bool`
parameter: `dbError = true` selects the `except sqlite3.Error` branch of the
Python method (rollback and sentinel return value), `dbError = false` the
successful commit.
-/

set_option maxHeartbeats 1000000

namespace CyberTriage

/-- A Python `str`, modelled as its sequence of characters. -/
abbrev Str := List Char

/-- One row of the `incidents` table (src/db_manager.py, `_init_database`).
The `cyberhaven_data` column stores a JSON dump and is opaque here. -/
structure Incident where
  incident_id : String
  file_name : String
  file_path : String
  file_type : String
  file_size : Int
  user_email : String
  cyberhaven_data : String
  status : String
  created_at : Nat
deriving DecidableEq

/-- A JSON value as produced by `json.loads` on the model response.  The
response schema of `GeminiAnalyzer` only uses strings, numbers, and arrays of
strings, so arrays are modelled as string lists. -/
inductive JVal where
  | jstr (s : String)
  | jnum (q : ℚ)
  | jarr (xs : List String)
  | jbool (b : Bool)
  | jnull
deriving DecidableEq

/-- One row of the `analysis` table.  `id` is the `AUTOINCREMENT` rowid.
The `gemini_*` value columns hold whatever JSON values the parsed response
supplied (the Python code stores them without conversion). -/
structure AnalysisRow where
  id : Int
  incident_id : String
  gemini_verdict : JVal
  gemini_confidence : JVal
  gemini_reasoning : JVal
  gemini_raw_response : String
  processing_time : ℚ
  created_at : Nat
deriving DecidableEq

/-- One row of the `feedback` table. -/
structure FeedbackRow where
  id : Nat
  incident_id : String
  analysis_id : Int
  original_verdict : String
  corrected_verdict : String
  analyst_comment : String
  relevance_score : ℚ
  created_at : Nat
deriving DecidableEq

/-- The state store: the three tables plus the next `AUTOINCREMENT` rowid of
each autoincremented table. -/
structure DB where
  incidents : List Incident
  analyses : List AnalysisRow
  feedback : List FeedbackRow
  nextAnalysisId : Int
  nextFeedbackId : Nat
deriving DecidableEq

/-- `DatabaseManager.insert_incident` (src/db_manager.py:102-133).
`incident_id` is the primary key, so inserting a present identifier raises
`sqlite3.IntegrityError`, which the method catches: it returns `False` and
writes nothing. -/
def insert_incident (db : DB) (inc : Incident) : DB × Bool :=
  if db.incidents.any (fun i => i.incident_id == inc.incident_id) then
    (db, false)
  else
    ({ db with incidents := db.incidents ++ [inc] }, true)

/-- `DatabaseManager.get_incident` (src/db_manager.py:135-147):
`SELECT * FROM incidents WHERE incident_id = ?`, first row or `None`. -/
def get_incident (db : DB) (incidentId : String) : Option Incident :=
  db.incidents.find? (fun i => i.incident_id == incidentId)

/-- `DatabaseManager.update_incident_status` (src/db_manager.py:170-181):
`UPDATE incidents SET status = ? WHERE incident_id = ?`. -/
def update_incident_status (db : DB) (incidentId status : String) : DB × Bool :=
  ({ db with
      incidents := db.incidents.map (fun i =>
        if i.incident_id == incidentId then { i with status := status } else i) },
    true)

/-- The column values passed to `DatabaseManager.insert_analysis`
(the `analysis_data` dict built in `GeminiAnalyzer.analyze_file`). -/
structure AnalysisData where
  incident_id : String
  gemini_verdict : JVal
  gemini_confidence : JVal
  gemini_reasoning : JVal
  gemini_raw_response : String
  processing_time : ℚ
deriving DecidableEq

/-- `DatabaseManager.insert_analysis` (src/db_manager.py:183-209).  On a
`sqlite3.Error` (`dbError = true`) the method rolls back and returns `-1`;
otherwise it appends one row and returns `cursor.lastrowid`. -/
def insert_analysis (db : DB) (a : AnalysisData) (now : Nat) (dbError : Bool) :
    DB × Int :=
  if dbError then (db, -1)
  else
    ({ db with
        analyses := db.analyses ++
          [{ id := db.nextAnalysisId, incident_id := a.incident_id,
             gemini_verdict := a.gemini_verdict,
             gemini_confidence := a.gemini_confidence,
             gemini_reasoning := a.gemini_reasoning,
             gemini_raw_response := a.gemini_raw_response,
             processing_time := a.processing_time, created_at := now }],
        nextAnalysisId := db.nextAnalysisId + 1 },
      db.nextAnalysisId)

/-- The column values passed to `DatabaseManager.insert_feedback`. -/
structure FeedbackData where
  incident_id : String
  analysis_id : Int
  original_verdict : String
  corrected_verdict : String
  analyst_comment : String
  relevance_score : ℚ
deriving DecidableEq

/-- `DatabaseManager.insert_feedback` (src/db_manager.py:229-254).  On a
`sqlite3.Error` it rolls back and returns `False`; otherwise it appends one
row and returns `True`. -/
def insert_feedback (db : DB) (f : FeedbackData) (now : Nat) (dbError : Bool) :
    DB × Bool :=
  if dbError then (db, false)
  else
    ({ db with
        feedback := db.feedback ++
          [{ id := db.nextFeedbackId, incident_id := f.incident_id,
             analysis_id := f.analysis_id,
             original_verdict := f.original_verdict,
             corrected_verdict := f.corrected_verdict,
             analyst_comment := f.analyst_comment,
             relevance_score := f.relevance_score, created_at := now }],
        nextFeedbackId := db.nextFeedbackId + 1 },
      true)

/-- One row of the result set of the `get_feedback_for_rag` query:
`SELECT f.*, i.file_name, i.file_type, a.gemini_reasoning as original_reasoning`.
The `LEFT JOIN analysis` contributes `none` when no analysis row matches. -/
structure RagRow where
  fb : FeedbackRow
  file_name : String
  file_type : String
  original_reasoning : Option JVal
deriving DecidableEq

/-- The `ORDER BY f.relevance_score DESC, f.created_at DESC` clause of
`get_feedback_for_rag`: `a` may appear no later than `b`. -/
def ragOrder (a b : RagRow) : Prop :=
  b.fb.relevance_score < a.fb.relevance_score ∨
    (a.fb.relevance_score = b.fb.relevance_score ∧
      b.fb.created_at ≤ a.fb.created_at)

instance : DecidableRel ragOrder := fun a b =>
  inferInstanceAs (Decidable (b.fb.relevance_score < a.fb.relevance_score ∨
    (a.fb.relevance_score = b.fb.relevance_score ∧
      b.fb.created_at ≤ a.fb.created_at)))

instance : IsTotal RagRow ragOrder := by
  constructor
  intro a b
  rcases lt_trichotomy a.fb.relevance_score b.fb.relevance_score with h | h | h
  · exact Or.inr (Or.inl h)
  · rcases Nat.le_total a.fb.created_at b.fb.created_at with h2 | h2
    · exact Or.inr (Or.inr ⟨h.symm, h2⟩)
    · exact Or.inl (Or.inr ⟨h, h2⟩)
  · exact Or.inl (Or.inl h)

instance : IsTrans RagRow ragOrder := by
  constructor
  intro a b c hab hbc
  rcases hab with h1 | ⟨h1, h1t⟩ <;> rcases hbc with h2 | ⟨h2, h2t⟩
  · exact Or.inl (lt_trans h2 h1)
  · exact Or.inl (h2 ▸ h1)
  · exact Or.inl (h1 ▸ h2)
  · exact Or.inr ⟨h1.trans h2, Nat.le_trans h2t h1t⟩

/-- The joined, unsorted result set of the `get_feedback_for_rag` query:
`FROM feedback f JOIN incidents i ON f.incident_id = i.incident_id
LEFT JOIN analysis a ON f.analysis_id = a.id`.  `incident_id` is the primary
key of `incidents` and `id` the rowid of `analysis`, so each feedback row
matches at most one row of each joined table and the inner join acts as a
filter. -/
def ragJoin (db : DB) : List RagRow :=
  db.feedback.filterMap (fun f =>
    (db.incidents.find? (fun i => i.incident_id == f.incident_id)).map (fun i =>
      { fb := f, file_name := i.file_name, file_type := i.file_type,
        original_reasoning :=
          (db.analyses.find? (fun a => a.id == f.analysis_id)).map
            (fun a => a.gemini_reasoning) }))

/-- `DatabaseManager.get_feedback_for_rag` (src/db_manager.py:256-274): the
joined rows, ordered by `relevance_score DESC, created_at DESC` and capped at
`LIMIT ?`.  The `ORDER BY` is embedded as a sort by `ragOrder`; rows that tie
on both sort keys are returned in an order SQLite leaves unspecified, and no
property proved below depends on such ties. -/
def get_feedback_for_rag (db : DB) (limit : Nat) : List RagRow :=
  ((ragJoin db).insertionSort ragOrder).take limit

/-- `DatabaseManager.get_feedback_stats` (src/db_manager.py:276-294): the pair
(total feedback rows, rows whose original and corrected verdicts differ). -/
def get_feedback_stats (db : DB) : Nat × Nat :=
  (db.feedback.length,
    db.feedback.countP (fun f => !(f.original_verdict == f.corrected_verdict)))

/-- `DatabaseManager.clear_old_data` (src/db_manager.py:335-360).  `date_limit`
is `datetime.now() - timedelta(days=days)`; each `DELETE ... WHERE created_at
< ?` removes the rows strictly older than the cutoff.  The deletions run in
source order: feedback, then analysis, then incidents; the returned triple is
`(deleted_incidents, deleted_analysis, deleted_feedback)`. -/
def clear_old_data (db : DB) (now days : Nat) : DB × (Nat × Nat × Nat) :=
  let dateLimit := now - days * 86400
  let deletedFeedback := db.feedback.countP (fun f => decide (f.created_at < dateLimit))
  let db1 := { db with
    feedback := db.feedback.filter (fun f => decide (¬ f.created_at < dateLimit)) }
  let deletedAnalysis := db.analyses.countP (fun a => decide (a.created_at < dateLimit))
  let db2 := { db1 with
    analyses := db.analyses.filter (fun a => decide (¬ a.created_at < dateLimit)) }
  let deletedIncidents := db.incidents.countP (fun i => decide (i.created_at < dateLimit))
  let db3 := { db2 with
    incidents := db.incidents.filter (fun i => decide (¬ i.created_at < dateLimit)) }
  (db3, (deletedIncidents, deletedAnalysis, deletedFeedback))

/-- Sixty copies of a character, as in the Python `'='*60` / `'-'*60`. -/
def sep60 (c : Char) : Str := List.replicate 60 c

/-- Decimal rendering of a `Nat`, as a Python f-string would produce. -/
def natStr (n : Nat) : Str := (Nat.repr n).data

/-- Rendering of a `ℚ` inside an f-string. -/
def ratStr (q : ℚ) : Str := (reprStr q).data

/-- Rendering of a JSON value inside an f-string. -/
def jvalRender : JVal → Str
  | .jstr s => s.data
  | .jnum q => ratStr q
  | .jarr xs => (reprStr xs).data
  | .jbool b => (if b then "True" else "False").data
  | .jnull => "None".data

/-- Python truthiness of a JSON value (`if fb.get('original_reasoning'):`). -/
def jvalTruthy : JVal → Bool
  | .jstr s => !(s == "")
  | .jnum q => !(q == 0)
  | .jarr xs => !xs.isEmpty
  | .jbool b => b
  | .jnull => false

/-- CPython `str.replace(pat, rep)` for a non-empty pattern: every
non-overlapping occurrence of `pat`, scanned left to right, is replaced by
`rep`.  (The call in `_build_rag_context` uses the fixed non-empty pattern
`\x7b\x7b#if has_feedback\x7d\x7d`, so the empty-pattern corner of the
CPython semantics never arises.) -/
def pyReplace (s pat rep : Str) : Str :=
  match s with
  | [] => []
  | c :: rest =>
    if h : pat ≠ [] ∧ pat.isPrefixOf (c :: rest) then
      rep ++ pyReplace (List.drop pat.length (c :: rest)) pat rep
    else
      c :: pyReplace rest pat rep
termination_by s.length
decreasing_by
  · have hp : 0 < pat.length := List.length_pos.mpr h.1
    simp only [List.length_drop, List.length_cons]
    omega
  · simp

/-- The `\x7b\x7b#if has_feedback\x7d\x7d` pattern replaced when no feedback
exists (src/gemini_analyzer.py:109). -/
def ragIfPattern : Str := "\x7b\x7b#if has_feedback\x7d\x7d".data

/-- The replacement text `\x7b\x7belse\x7d\x7d` (src/gemini_analyzer.py:109). -/
def ragElseText : Str := "\x7b\x7belse\x7d\x7d".data

/-- The banner line that opens the learning section of the RAG context
(src/gemini_analyzer.py:112). -/
def learningHeader : Str := "🧠 APRENDIZAJE DE CASOS ANTERIORES\n".data

/-- One numbered case of the RAG context
(the loop body of `_build_rag_context`, src/gemini_analyzer.py:117-131). -/
def ragContextEntry (idx : Nat) (r : RagRow) : Str :=
  "### Caso #".data ++ natStr idx ++ ": ".data ++ r.file_name.data ++ "\n\n".data
  ++ "**Archivo:** `".data ++ r.file_name.data ++ "` (tipo: ".data
  ++ r.file_type.data ++ ")\n\n".data
  ++ "**Tu Veredicto Original (INCORRECTO):** ".data
  ++ r.fb.original_verdict.data ++ "\n\n".data
  ++ "**Veredicto Correcto:** ".data ++ r.fb.corrected_verdict.data ++ "\n\n".data
  ++ "**Comentario del Analista:**\n> ".data ++ r.fb.analyst_comment.data ++ "\n\n".data
  ++ (match r.original_reasoning with
      | some v =>
        if jvalTruthy v then
          "**Tu Razonamiento Original:**\n".data ++ jvalRender v ++ "\n\n".data
        else []
      | none => [])
  ++ "**Relevancia:** ".data ++ ratStr r.fb.relevance_score ++ "/1.0\n\n".data
  ++ "**Lección:**\n".data
  ++ "- Ajusta tu análisis considerando este contexto empresarial\n".data
  ++ "- No repitas el mismo error de clasificación\n\n".data
  ++ sep60 '-' ++ "\n\n".data

/-- `GeminiAnalyzer._build_rag_context` (src/gemini_analyzer.py:106-141).
`ragTemplate` is the content of `prompts/rag_template.md` as loaded by
`_load_rag_template`, which returns the empty string when the file is absent.
With no feedback the method returns the template with its `#if` marker
replaced; otherwise it builds the learning section opened by
`learningHeader`. -/
def build_rag_context (db : DB) (ragTemplate : Str) (limit : Nat) : Str :=
  let feedbackItems := get_feedback_for_rag db limit
  if feedbackItems.isEmpty then
    pyReplace ragTemplate ragIfPattern ragElseText
  else
    "\n\n".data ++ sep60 '=' ++ "\n".data
    ++ learningHeader
    ++ sep60 '=' ++ "\n\n".data
    ++ "Se encontraron ".data ++ natStr feedbackItems.length
    ++ " correcciones históricas. ".data
    ++ "Estudia estos casos para evitar los mismos errores:\n\n".data
    ++ (feedbackItems.enum.map (fun p => ragContextEntry (p.1 + 1) p.2)).flatten
    ++ "📈 **ESTADÍSTICAS DE APRENDIZAJE:**\n".data
    ++ "- Total de Feedback: ".data ++ natStr (get_feedback_stats db).1 ++ "\n".data
    ++ "- Correcciones Aplicadas: ".data ++ natStr (get_feedback_stats db).2 ++ "\n".data
    ++ "- Casos en este Análisis: ".data ++ natStr feedbackItems.length ++ "\n\n".data
    ++ "🎯 **APLICA ESTE CONOCIMIENTO:** Revisa si el archivo actual es similar a estos casos.\n\n".data

/-- The prompt assembled by `GeminiAnalyzer.analyze_file`
(src/gemini_analyzer.py:201-217): system prompt, optional RAG context, file
header, the evidentiary content truncated to its first 50000 characters
(`file_content[:50000]`), and the closing directive. -/
def build_full_prompt (systemPrompt ragContext : Str) (useRag : Bool)
    (fileName fileSuffix incidentId fileContent : Str) : Str :=
  let p1 := systemPrompt ++ "\n\n".data
  let p2 := if useRag then p1 ++ ragContext ++ "\n\n".data else p1
  p2 ++ sep60 '-' ++ "\n".data
    ++ "## 📄 ARCHIVO A ANALIZAR\n\n".data
    ++ "**Nombre:** ".data ++ fileName ++ "\n".data
    ++ "**Tipo:** ".data ++ fileSuffix ++ "\n".data
    ++ "**Incident ID:** ".data ++ incidentId ++ "\n\n".data
    ++ "**CONTENIDO DEL ARCHIVO:**\n".data
    ++ "```\n".data
    ++ fileContent.take 50000
    ++ "\n```\n\n".data
    ++ sep60 '-' ++ "\n\n".data
    ++ "🎯 **GENERA TU ANÁLISIS AHORA:**\n".data

/-- A parsed JSON object: the result of `json.loads` on the raw model
response when parsing succeeds. -/
abbrev JObj := List (String × JVal)

/-- Python `dict` key lookup on a parsed JSON object. -/
def jlookup (o : JObj) (k : String) : Option JVal :=
  (o.find? (fun p => p.1 == k)).map (fun p => p.2)

/-- The `required_fields` list checked by `analyze_file`
(src/gemini_analyzer.py:239). -/
def required_fields : List String := ["verdict", "confidence", "summary", "reasoning"]

/-- The dictionary returned by `GeminiAnalyzer.analyze_file`.  The Python
code returns differently-shaped dicts on the success and error paths; absent
keys are `none`. -/
structure AnalyzeResult where
  success : Bool
  incident_id : String
  error : Option String
  analysis_id : Option Int
  verdict : Option JVal
  confidence : Option JVal
  summary : Option JVal
  reasoning : Option JVal
  risk_level : Option JVal
  indicators : Option JVal
  recommendations : Option JVal
  false_positive_reasons : Option JVal
  raw_response : Option String
deriving DecidableEq

/-- The error dict returned from the `except` branches of `analyze_file`. -/
def analyzeError (incidentId msg : String) (raw : Option String) : AnalyzeResult :=
  { success := false, incident_id := incidentId, error := some msg,
    analysis_id := none, verdict := none, confidence := none, summary := none,
    reasoning := none, risk_level := none, indicators := none,
    recommendations := none, false_positive_reasons := none,
    raw_response := raw }

/-- The tail of `GeminiAnalyzer.analyze_file` after the model call returns
(src/gemini_analyzer.py:232-287): `json.loads` the raw text (`parsed = none`
models a `json.JSONDecodeError`), check the four required fields (a missing
field raises `ValueError`, caught by the generic `except Exception`), then
persist one analysis row via `insert_analysis` and return the success dict —
including `analysis_id` exactly as `insert_analysis` returned it. -/
def analyze_file_post (db : DB) (incidentId raw : String)
    (parsed : Option JObj) (processingTime : ℚ) (now : Nat) (dbError : Bool) :
    DB × AnalyzeResult :=
  match parsed with
  | none =>
    (db, analyzeError incidentId "Error parseando respuesta JSON" (some raw))
  | some analysis =>
    if required_fields.all (fun f => (jlookup analysis f).isSome) then
      let data : AnalysisData :=
        { incident_id := incidentId,
          gemini_verdict := (jlookup analysis "verdict").getD JVal.jnull,
          gemini_confidence := (jlookup analysis "confidence").getD JVal.jnull,
          gemini_reasoning := (jlookup analysis "reasoning").getD JVal.jnull,
          gemini_raw_response := raw,
          processing_time := processingTime }
      let res := insert_analysis db data now dbError
      (res.1,
        { success := true, incident_id := incidentId, error := none,
          analysis_id := some res.2,
          verdict := jlookup analysis "verdict",
          confidence := jlookup analysis "confidence",
          summary := jlookup analysis "summary",
          reasoning := jlookup analysis "reasoning",
          risk_level := some ((jlookup analysis "risk_level").getD (JVal.jstr "N/A")),
          indicators := some ((jlookup analysis "indicators").getD (JVal.jarr [])),
          recommendations := some ((jlookup analysis "recommendations").getD (JVal.jarr [])),
          false_positive_reasons :=
            some ((jlookup analysis "false_positive_reasons").getD (JVal.jarr [])),
          raw_response := some raw })
    else
      (db, analyzeError incidentId "Campo obligatorio no encontrado en respuesta" none)

/-- The feedback-saving tail of `CyberTriageCLI._collect_feedback`
(src/cyber_triage_cli.py:349-365) composed with
`GeminiAnalyzer.submit_feedback` (src/gemini_analyzer.py:289-311): insert the
feedback row; if that succeeded, set the incident status to `analyzed` when
the corrected verdict is not `REQUIRES_REVIEW` and back to `pending` when it
is. -/
def collect_feedback_save (db : DB) (incidentId : String) (analysisId : Int)
    (originalVerdict correctedVerdict analystComment : String) (relevance : ℚ)
    (now : Nat) (dbError : Bool) : DB × Bool :=
  let r := insert_feedback db
    { incident_id := incidentId, analysis_id := analysisId,
      original_verdict := originalVerdict, corrected_verdict := correctedVerdict,
      analyst_comment := analystComment, relevance_score := relevance } now dbError
  if r.2 then
    let status := if correctedVerdict ≠ "REQUIRES_REVIEW" then "analyzed" else "pending"
    ((update_incident_status r.1 incidentId status).1, true)
  else
    (r.1, false)

/-- The pre-composition content guard of `GeminiAnalyzer.analyze_file`
(src/gemini_analyzer.py:191-199): after `_read_file_content`, the condition
`if not file_content or len(file_content) < 10` makes the method return the
error dict "Archivo vacío o contenido insuficiente" immediately — before any
prompt is composed.  `some result` models that early error return; `none`
means the method proceeds to compose the prompt and call the model. -/
def analyze_file_content_guard (incidentId : String) (fileContent : Str) :
    Option AnalyzeResult :=
  if fileContent.isEmpty || decide (fileContent.length < 10) then
    some (analyzeError incidentId "Archivo vacío o contenido insuficiente" none)
  else
    none

/-! Concrete stores and responses used to evaluate the theorems below on
explicit inputs. -/

/-- The empty store, as produced by a fresh `_init_database`. -/
def dbEmpty : DB :=
  { incidents := [], analyses := [], feedback := [], nextAnalysisId := 1,
    nextFeedbackId := 1 }

/-- A concrete incident. -/
def incA : Incident :=
  { incident_id := "INC-1", file_name := "a.txt",
    file_path := "./evidencia_temp/a.txt", file_type := ".txt", file_size := 100,
    user_email := "u@example.com", cyberhaven_data := "\x7b\x7d",
    status := "pending", created_at := 1000 }

/-- The incident owning the feedback of `dbC2`. -/
def incB : Incident :=
  { incident_id := "I1", file_name := "b.txt",
    file_path := "./evidencia_temp/b.txt", file_type := ".txt", file_size := 50,
    user_email := "u@example.com", cyberhaven_data := "\x7b\x7d",
    status := "analyzed", created_at := 0 }

/-- A feedback row for incident `I1` with the given rowid, relevance score and
creation time. -/
def fbRow (id : Nat) (score : ℚ) (t : Nat) : FeedbackRow :=
  { id := id, incident_id := "I1", analysis_id := 0,
    original_verdict := "TRUE_POSITIVE", corrected_verdict := "FALSE_POSITIVE",
    analyst_comment := "contexto empresarial conocido", relevance_score := score,
    created_at := t }

/-- The store of the spec ordering scenario: feedback with relevance scores
1.0, 0.3, 0.7, 1.0 and strictly increasing timestamps. -/
def dbC2 : DB :=
  { incidents := [incB], analyses := [],
    feedback := [fbRow 1 1 1, fbRow 2 (mkRat 3 10) 2, fbRow 3 (mkRat 7 10) 3, fbRow 4 1 4],
    nextAnalysisId := 1, nextFeedbackId := 5 }

/-- The joined row that `get_feedback_for_rag` produces for a feedback row of
`dbC2` (no analysis row matches, so `original_reasoning` is `none`). -/
def ragRowOf (f : FeedbackRow) : RagRow :=
  { fb := f, file_name := "b.txt", file_type := ".txt", original_reasoning := none }

/-- A store holding one pending incident, for the feedback-recording scenario. -/
def dbC4 : DB :=
  { incidents := [incA], analyses := [], feedback := [], nextAnalysisId := 1,
    nextFeedbackId := 1 }

/-- An incident created 31 days before the retention scenario's `now`. -/
def incOld : Incident := { incA with incident_id := "OLD", created_at := 9 * 86400 }

/-- An incident created 29 days before the retention scenario's `now`. -/
def incNew : Incident := { incA with incident_id := "NEW", created_at := 11 * 86400 }

/-- An analysis row with the given rowid and creation time. -/
def anRow (id : Int) (t : Nat) : AnalysisRow :=
  { id := id, incident_id := "OLD", gemini_verdict := JVal.jstr "TRUE_POSITIVE",
    gemini_confidence := JVal.jnum (mkRat 9 10), gemini_reasoning := JVal.jstr "razones",
    gemini_raw_response := "raw", processing_time := 2, created_at := t }

/-- The retention scenario store: one row per table aged 31 days and one aged
29 days, with `now = 40 * 86400`. -/
def dbC5 : DB :=
  { incidents := [incOld, incNew],
    analyses := [anRow 1 (9 * 86400), anRow 2 (11 * 86400)],
    feedback := [fbRow 1 1 (9 * 86400), fbRow 2 1 (11 * 86400)],
    nextAnalysisId := 3, nextFeedbackId := 3 }

/-- A parsed model response carrying all four required fields. -/
def objFull : JObj :=
  [("verdict", JVal.jstr "FALSE_POSITIVE"), ("confidence", JVal.jnum (mkRat 9 10)),
   ("summary", JVal.jstr "resumen breve"),
   ("reasoning", JVal.jstr "razonamiento detallado")]

/-- A parsed model response missing the required `reasoning` field. -/
def objMissingReasoning : JObj :=
  [("verdict", JVal.jstr "FALSE_POSITIVE"), ("confidence", JVal.jnum (mkRat 9 10)),
   ("summary", JVal.jstr "resumen breve")]

/-! Theorems. -/

/-- Shared helper: the number of rows matching `p` plus the number of surviving
rows after filtering out the matches is the original number of rows. -/
theorem countP_add_length_filter_not {α : Type} (p : α → Prop) [DecidablePred p]
    (l : List α) :
    l.countP (fun a => decide (p a))
        + (l.filter (fun a => decide (¬ p a))).length = l.length := by
  induction l with
  | nil => rfl
  | cons a l ih =>
    simp only [decide_not] at ih ⊢
    by_cases h : p a
    · have h1 : decide (p a) = true := decide_eq_true h
      simp [List.countP_cons, List.filter_cons, h1]
      omega
    · have h1 : decide (p a) = false := decide_eq_false h
      simp [List.countP_cons, List.filter_cons, h1]
      omega

/-- Shared helper: updating the status of the rows matching an identifier
commutes with looking the identifier up. -/
theorem find?_update_status (l : List Incident) (idv st : String) :
    (l.map (fun i => if i.incident_id == idv then { i with status := st } else i)).find?
        (fun i => i.incident_id == idv)
      = (l.find? (fun i => i.incident_id == idv)).map
          (fun i => { i with status := st }) := by
  rw [List.find?_map]
  have hp : ((fun i : Incident => i.incident_id == idv) ∘
      (fun i => if i.incident_id == idv then { i with status := st } else i))
      = (fun i : Incident => i.incident_id == idv) := by
    funext i
    simp only [Function.comp_apply]
    by_cases h : (i.incident_id == idv) = true
    · rw [if_pos h]
    · rw [if_neg h]
  rw [hp]
  cases hfind : l.find? (fun i => i.incident_id == idv) with
  | none => rfl
  | some x =>
    have hx := List.find?_some hfind
    simp only [Option.map_some']
    rw [if_pos hx]

/-- Shared helper: `get_incident` after `update_incident_status` is
`get_incident` before it, with the status field replaced. -/
theorem get_incident_update_status (db : DB) (idv st : String) :
    get_incident (update_incident_status db idv st).1 idv
      = (get_incident db idv).map (fun i => { i with status := st }) :=
  find?_update_status db.incidents idv st

/-- Shared helper: the successful feedback save updates the looked-up incident
status to the value chosen from the corrected verdict. -/
theorem collect_feedback_save_status (db : DB) (incidentId : String)
    (analysisId : Int) (ov cv comment : String) (rel : ℚ) (now : Nat) :
    get_incident (collect_feedback_save db incidentId analysisId ov cv comment
        rel now false).1 incidentId
      = (get_incident db incidentId).map (fun i =>
          { i with status := if cv ≠ "REQUIRES_REVIEW" then "analyzed" else "pending" }) :=
  get_incident_update_status
    (insert_feedback db
      { incident_id := incidentId, analysis_id := analysisId,
        original_verdict := ov, corrected_verdict := cv,
        analyst_comment := comment, relevance_score := rel } now false).1
    incidentId (if cv ≠ "REQUIRES_REVIEW" then "analyzed" else "pending")

/-- C1: inserting an incident whose identifier is unseen succeeds; inserting
it again returns `false` (the caught `IntegrityError` branch), changes
nothing, and leaves exactly one row carrying that identifier. -/
theorem insert_incident_idempotent (db : DB) (inc : Incident)
    (h : ∀ i ∈ db.incidents, i.incident_id ≠ inc.incident_id) :
    (insert_incident db inc).2 = true ∧
    (insert_incident (insert_incident db inc).1 inc).2 = false ∧
    (insert_incident (insert_incident db inc).1 inc).1 = (insert_incident db inc).1 ∧
    (insert_incident (insert_incident db inc).1 inc).1.incidents.countP
        (fun i => i.incident_id == inc.incident_id) = 1 := by
  have hany : db.incidents.any (fun i => i.incident_id == inc.incident_id) = false := by
    rw [List.any_eq_false]
    intro i hi
    simpa using h i hi
  have hc0 : db.incidents.countP (fun i => i.incident_id == inc.incident_id) = 0 := by
    rw [List.countP_eq_zero]
    intro i hi
    simpa using h i hi
  simp [insert_incident, hany, List.countP_append, hc0]

/-- C1 witness: the double insert evaluated on the empty store. -/
theorem insert_incident_idempotent_witness :
    (insert_incident dbEmpty incA).2 = true ∧
    (insert_incident (insert_incident dbEmpty incA).1 incA).2 = false ∧
    (insert_incident (insert_incident dbEmpty incA).1 incA).1.incidents.countP
        (fun i => i.incident_id == incA.incident_id) = 1 := by
  obtain ⟨h1, h2, _h3, h4⟩ :=
    insert_incident_idempotent dbEmpty incA
      (fun i hi => absurd hi (List.not_mem_nil i))
  exact ⟨h1, h2, h4⟩

/-- C2: `get_feedback_for_rag` returns at most `limit` rows, ordered by
relevance score descending with ties broken by creation time descending; on
the spec scenario (scores 1.0, 0.3, 0.7, 1.0 with increasing timestamps,
limit 3) it returns the two 1.0-score rows newest first and then the
0.7-score row. -/
theorem feedback_for_rag_ordered :
    (∀ (db : DB) (limit : Nat),
      (get_feedback_for_rag db limit).length ≤ limit ∧
      (get_feedback_for_rag db limit).Pairwise ragOrder) ∧
    get_feedback_for_rag dbC2 3
      = [ragRowOf (fbRow 4 1 4), ragRowOf (fbRow 1 1 1), ragRowOf (fbRow 3 (mkRat 7 10) 3)] := by
  constructor
  · intro db limit
    constructor
    · rw [get_feedback_for_rag, List.length_take]
      exact min_le_left _ _
    · exact List.Pairwise.sublist (List.take_sublist _ _)
        (List.sorted_insertionSort ragOrder (ragJoin db))
  · decide

/-- C3: a model response that fails to parse, or parses but omits one of the
required fields `verdict`, `confidence`, `summary`, `reasoning`, makes
`analyze_file` return an error dict (`success = false`) and leaves the store
unchanged: no analysis row is persisted. -/
theorem analyze_rejects_invalid_response (db : DB) (incidentId raw : String)
    (parsed : Option JObj) (t : ℚ) (now : Nat) (dbError : Bool)
    (h : parsed = none ∨
      ∃ o, parsed = some o ∧ ∃ f ∈ required_fields, jlookup o f = none) :
    (analyze_file_post db incidentId raw parsed t now dbError).2.success = false ∧
    (analyze_file_post db incidentId raw parsed t now dbError).1 = db := by
  rcases h with h | ⟨o, rfl, f, hf, hnone⟩
  · subst h
    simp [analyze_file_post, analyzeError]
  · have hall : required_fields.all (fun f => (jlookup o f).isSome) = false := by
      rw [Bool.eq_false_iff]
      intro hall
      rw [List.all_eq_true] at hall
      have := hall f hf
      rw [hnone] at this
      simp at this
    simp [analyze_file_post, hall, analyzeError]

/-- C3 witness: the schema-rejection scenario, a response missing
`reasoning`. -/
theorem analyze_rejects_invalid_response_witness :
    (analyze_file_post dbEmpty "INC-1" "raw" (some objMissingReasoning) 1 2000
        false).2.success = false ∧
    (analyze_file_post dbEmpty "INC-1" "raw" (some objMissingReasoning) 1 2000
        false).1 = dbEmpty :=
  analyze_rejects_invalid_response dbEmpty "INC-1" "raw" (some objMissingReasoning)
    1 2000 false
    (Or.inr ⟨objMissingReasoning, rfl, "reasoning", by decide, by decide⟩)

/-- C4: when the feedback row is recorded successfully, the owning incident's
status becomes `analyzed` when the corrected verdict differs from
`REQUIRES_REVIEW` and `pending` when it equals it. -/
theorem feedback_status_transition (db : DB) (incidentId : String)
    (analysisId : Int) (ov cv comment : String) (rel : ℚ) (now : Nat) :
    ((collect_feedback_save db incidentId analysisId ov cv comment rel now
        false).2 = true) ∧
    (cv ≠ "REQUIRES_REVIEW" →
      get_incident (collect_feedback_save db incidentId analysisId ov cv comment
          rel now false).1 incidentId
        = (get_incident db incidentId).map (fun i => { i with status := "analyzed" })) ∧
    (cv = "REQUIRES_REVIEW" →
      get_incident (collect_feedback_save db incidentId analysisId ov cv comment
          rel now false).1 incidentId
        = (get_incident db incidentId).map (fun i => { i with status := "pending" })) := by
  refine ⟨rfl, ?_, ?_⟩
  · intro hne
    rw [collect_feedback_save_status]
    have hst : (if cv ≠ "REQUIRES_REVIEW" then "analyzed" else "pending")
        = "analyzed" := if_pos hne
    simp only [hst]
  · intro heq
    rw [collect_feedback_save_status]
    have hst : (if cv ≠ "REQUIRES_REVIEW" then "analyzed" else "pending")
        = "pending" := if_neg (not_not_intro heq)
    simp only [hst]

/-- C4 witness: both corrected-verdict cases evaluated on a store holding one
pending incident. -/
theorem feedback_status_transition_witness :
    get_incident (collect_feedback_save dbC4 "INC-1" 1 "TRUE_POSITIVE"
        "FALSE_POSITIVE" "contexto empresarial conocido" 1 5000 false).1 "INC-1"
      = some { incA with status := "analyzed" } ∧
    get_incident (collect_feedback_save dbC4 "INC-1" 1 "TRUE_POSITIVE"
        "REQUIRES_REVIEW" "contexto empresarial conocido" 1 5000 false).1 "INC-1"
      = some { incA with status := "pending" } := by
  constructor
  · have h := (feedback_status_transition dbC4 "INC-1" 1 "TRUE_POSITIVE"
      "FALSE_POSITIVE" "contexto empresarial conocido" 1 5000).2.1 (by decide)
    rw [h]
    decide
  · have h := (feedback_status_transition dbC4 "INC-1" 1 "TRUE_POSITIVE"
      "REQUIRES_REVIEW" "contexto empresarial conocido" 1 5000).2.2 rfl
    rw [h]
    decide

/-- C5: `clear_old_data` deletes exactly the rows created strictly before
`now - days` (in each of the three tables), keeps every row at or after the
cutoff, and returns the deletion counts as
`(incidents, analyses, feedback)`. -/
theorem clear_old_data_correct (db : DB) (now days : Nat) :
    ((clear_old_data db now days).2.1
        + (clear_old_data db now days).1.incidents.length = db.incidents.length) ∧
    ((clear_old_data db now days).2.2.1
        + (clear_old_data db now days).1.analyses.length = db.analyses.length) ∧
    ((clear_old_data db now days).2.2.2
        + (clear_old_data db now days).1.feedback.length = db.feedback.length) ∧
    (∀ i : Incident, i ∈ (clear_old_data db now days).1.incidents ↔
      i ∈ db.incidents ∧ ¬ i.created_at < now - days * 86400) ∧
    (∀ a : AnalysisRow, a ∈ (clear_old_data db now days).1.analyses ↔
      a ∈ db.analyses ∧ ¬ a.created_at < now - days * 86400) ∧
    (∀ f : FeedbackRow, f ∈ (clear_old_data db now days).1.feedback ↔
      f ∈ db.feedback ∧ ¬ f.created_at < now - days * 86400) := by
  refine ⟨?_, ?_, ?_, ?_, ?_, ?_⟩
  · exact countP_add_length_filter_not
      (fun i : Incident => i.created_at < now - days * 86400) db.incidents
  · exact countP_add_length_filter_not
      (fun a : AnalysisRow => a.created_at < now - days * 86400) db.analyses
  · exact countP_add_length_filter_not
      (fun f : FeedbackRow => f.created_at < now - days * 86400) db.feedback
  · intro i
    simp [clear_old_data, List.mem_filter]
  · intro a
    simp [clear_old_data, List.mem_filter]
  · intro f
    simp [clear_old_data, List.mem_filter]

/-- C5 witness: the spec retention scenario — rows aged 31 days are deleted,
rows aged 29 days survive, and the counts come back as
`(incidents, analyses, feedback)`. -/
theorem clear_old_data_correct_witness :
    (incOld ∈ (clear_old_data dbC5 (40 * 86400) 30).1.incidents → False) ∧
    incNew ∈ (clear_old_data dbC5 (40 * 86400) 30).1.incidents ∧
    (clear_old_data dbC5 (40 * 86400) 30).2 = (1, 1, 1) := by
  obtain ⟨hci, hca, hcf, hmi, hma, hmf⟩ := clear_old_data_correct dbC5 (40 * 86400) 30
  refine ⟨fun hmem => ?_, ?_, ?_⟩
  · exact ((hmi incOld).mp hmem).2 (by decide)
  · exact (hmi incNew).mpr ⟨by decide, by decide⟩
  · decide

/-- C6 counterexample: with a well-formed response but a failing database
write (`insert_analysis` hits `sqlite3.Error`, rolls back and returns `-1`),
`analyze_file` still reports `success = true`, carries `analysis_id = -1`,
and no analysis row was persisted — refuting the claim that a success result
implies a persisted row. -/
theorem analyze_success_despite_failed_persist :
    (analyze_file_post dbEmpty "INC-1" "raw" (some objFull) 1 2000 true).2.success
        = true ∧
    (analyze_file_post dbEmpty "INC-1" "raw" (some objFull) 1 2000 true).2.analysis_id
        = some (-1) ∧
    (analyze_file_post dbEmpty "INC-1" "raw" (some objFull) 1 2000
        true).1.analyses = [] := by
  decide

/-- C6 (amended): on a valid response, if the write succeeds then exactly one
analysis row is appended and the result's `analysis_id` is that row's rowid;
if the write fails, `analyze_file` still returns `success = true` with the
sentinel `analysis_id = -1` and the store unchanged. -/
theorem analyze_persistence_semantics (db : DB) (incidentId raw : String)
    (o : JObj) (t : ℚ) (now : Nat)
    (h : required_fields.all (fun f => (jlookup o f).isSome) = true) :
    ((analyze_file_post db incidentId raw (some o) t now false).2.success = true ∧
      (analyze_file_post db incidentId raw (some o) t now false).1.analyses
        = db.analyses ++
          [{ id := db.nextAnalysisId, incident_id := incidentId,
             gemini_verdict := (jlookup o "verdict").getD JVal.jnull,
             gemini_confidence := (jlookup o "confidence").getD JVal.jnull,
             gemini_reasoning := (jlookup o "reasoning").getD JVal.jnull,
             gemini_raw_response := raw, processing_time := t,
             created_at := now }] ∧
      (analyze_file_post db incidentId raw (some o) t now false).2.analysis_id
        = some db.nextAnalysisId) ∧
    ((analyze_file_post db incidentId raw (some o) t now true).2.success = true ∧
      (analyze_file_post db incidentId raw (some o) t now true).1 = db ∧
      (analyze_file_post db incidentId raw (some o) t now true).2.analysis_id
        = some (-1)) := by
  simp [analyze_file_post, h, insert_analysis]

/-- C6 witness: the amended persistence semantics evaluated on the empty
store. -/
theorem analyze_persistence_semantics_witness :
    (analyze_file_post dbEmpty "INC-1" "raw" (some objFull) 1 2000
        false).2.analysis_id = some 1 ∧
    (analyze_file_post dbEmpty "INC-1" "raw" (some objFull) 1 2000
        true).2.success = true :=
  ⟨(analyze_persistence_semantics dbEmpty "INC-1" "raw" objFull 1 2000
      (by decide)).1.2.2,
   (analyze_persistence_semantics dbEmpty "INC-1" "raw" objFull 1 2000
      (by decide)).2.1⟩

/-- C7: the composed prompt embeds exactly the first 50000 characters of the
evidentiary content: the embedded text is a leading segment of the content
(leading characters kept, trailing dropped) of length `min 50000 (length)`. -/
theorem prompt_truncates_content (sys rag : Str) (useRag : Bool)
    (fileName fileSuffix incidentId content : Str) :
    (∃ pre post : Str,
      build_full_prompt sys rag useRag fileName fileSuffix incidentId content
        = pre ++ (content.take 50000 ++ post)) ∧
    content.take 50000 <+: content ∧
    (content.take 50000).length = min 50000 content.length := by
  refine ⟨⟨(if useRag then sys ++ "\n\n".data ++ rag ++ "\n\n".data
        else sys ++ "\n\n".data)
      ++ sep60 '-' ++ "\n".data
      ++ "## 📄 ARCHIVO A ANALIZAR\n\n".data
      ++ "**Nombre:** ".data ++ fileName ++ "\n".data
      ++ "**Tipo:** ".data ++ fileSuffix ++ "\n".data
      ++ "**Incident ID:** ".data ++ incidentId ++ "\n\n".data
      ++ "**CONTENIDO DEL ARCHIVO:**\n".data
      ++ "```\n".data,
      "\n```\n\n".data ++ sep60 '-' ++ "\n\n".data
      ++ "🎯 **GENERA TU ANÁLISIS AHORA:**\n".data, ?_⟩,
    List.take_prefix _ _, List.length_take _ _⟩
  by_cases h : useRag = true
  · simp [build_full_prompt, h, List.append_assoc]
  · simp [build_full_prompt, h, List.append_assoc]

/-- C8: with zero feedback rows the RAG context is just the template with its
conditional marker replaced — in particular it is empty for the
default-absent template — so the composed prompt carries no learning section,
and composition is a total function (no exception). -/
theorem empty_feedback_no_learning_section (db : DB) (ragTemplate : Str)
    (limit : Nat) (h : db.feedback = []) :
    build_rag_context db ragTemplate limit
      = pyReplace ragTemplate ragIfPattern ragElseText ∧
    build_rag_context db [] limit = [] ∧
    ¬ learningHeader <:+: build_rag_context db [] limit := by
  have hempty : get_feedback_for_rag db limit = [] := by
    simp [get_feedback_for_rag, ragJoin, h]
  have h1 : build_rag_context db ragTemplate limit
      = pyReplace ragTemplate ragIfPattern ragElseText := by
    rw [build_rag_context]
    simp [hempty]
  have h2 : build_rag_context db [] limit = [] := by
    rw [build_rag_context]
    simp [hempty, pyReplace]
  refine ⟨h1, h2, ?_⟩
  rw [h2]
  rw [List.infix_nil]
  decide

/-- C8 witness: the empty store renders an empty RAG contribution. -/
theorem empty_feedback_no_learning_section_witness :
    build_rag_context dbEmpty [] 5 = [] :=
  (empty_feedback_no_learning_section dbEmpty [] 5 rfl).2.1

/-- C9: evaluated at an incident with no evidentiary file content (the read
yields the empty string), `analyze_file` hits its content guard and returns
the error dict "Archivo vacío o contenido insuficiente" with
`success = false` — it composes no prompt at all, and no
classify-from-metadata-only marker exists anywhere in its composition —
contradicting the spec's §4.3 edge case, which the claim restates. -/
theorem analyze_file_no_content_is_error :
    analyze_file_content_guard "INC-1" []
      = some (analyzeError "INC-1" "Archivo vacío o contenido insuficiente" none) ∧
    (analyzeError "INC-1" "Archivo vacío o contenido insuficiente" none).success
      = false := by
  decide

/-- C10: every row returned by `get_feedback_for_rag` joins an incident row
that is present in the store — feedback whose owning incident is absent (for
instance after retention cleanup removed it) is never returned. -/
theorem rag_row_incident_exists (db : DB) (limit : Nat) (row : RagRow)
    (h : row ∈ get_feedback_for_rag db limit) :
    ∃ i ∈ db.incidents, i.incident_id = row.fb.incident_id := by
  have h1 : row ∈ (ragJoin db).insertionSort ragOrder :=
    List.take_subset _ _ h
  have h2 : row ∈ ragJoin db := (List.mem_insertionSort ragOrder).mp h1
  rw [ragJoin, List.mem_filterMap] at h2
  obtain ⟨f, _hf, hmap⟩ := h2
  obtain ⟨i, hfind, hrow⟩ := Option.map_eq_some'.mp hmap
  refine ⟨i, List.mem_of_find?_eq_some hfind, ?_⟩
  have hfb : row.fb = f := by
    rw [← hrow]
  have hp := List.find?_some hfind
  rw [hfb]
  simpa using hp

/-- C10 witness: the theorem applied to a concrete retrieved row. -/
theorem rag_row_incident_exists_witness :
    ragRowOf (fbRow 4 1 4) ∈ get_feedback_for_rag dbC2 3 ∧
    ∃ i ∈ dbC2.incidents, i.incident_id = (ragRowOf (fbRow 4 1 4)).fb.incident_id :=
  ⟨by decide, rag_row_incident_exists dbC2 3 _ (by decide)⟩

end CyberTriage
